import Mathlib

/-!
Shallow embedding of the generic CRUD manager of the repository
(src/utils/manager/generic.py, src/utils/manager/exceptions.py, together
with the concrete entity type src/app/models.py).

The embedding keeps the source structure: the query builder state, the
execution engine, the persistence manager with its save/rollback handling,
and the translation of database integrity failures into the small domain
error taxonomy.  Machine-level details that the claims do not touch
(connection handling, SQL text generation) are abstracted into an explicit
database outcome that is an input of `save`.
-/

namespace FastapiTemplate

/-- Column values of an entity row.  The Example model declares an Integer
primary key and two String columns; an unset column attribute is None
(SQLAlchemy default when no column default is declared), modelled by
`Value.none`. -/
inductive Value where
  | none
  | int (n : Int)
  | str (s : String)
deriving DecidableEq, Inhabited

/-- A keyword-argument value passed to the filter construction: a plain
value (equality filter) or a list of values (a `field__in` membership
filter). -/
inductive Arg where
  | val (v : Value)
  | vals (vs : List Value)
deriving DecidableEq, Inhabited

/-- A row of the Example entity (src/app/models.py): columns id, code,
value.  This mirrors the SQLAlchemy ORM object attribute-for-attribute. -/
structure Row where
  id : Value
  code : Value
  value : Value
deriving DecidableEq, Inhabited

/-- The fields declared on the Example model class; `hasattr(self.model, f)`
in the source corresponds to membership in this list. -/
def exampleFields : List String := ["id", "code", "value"]

/-- Attribute read on a Row, `getattr(instance, f)`. -/
def Row.get (r : Row) (f : String) : Value :=
  if f = "id" then r.id
  else if f = "code" then r.code
  else if f = "value" then r.value
  else Value.none

/-- Attribute write on a Row, `setattr(instance, f, v)`; a name that is not
a declared column leaves the row unchanged (such a name never reaches a
row in the source paths modelled here). -/
def Row.set (r : Row) (f : String) (v : Value) : Row :=
  if f = "id" then { r with id := v }
  else if f = "code" then { r with code := v }
  else if f = "value" then { r with value := v }
  else r

/-- A freshly constructed model instance before any attribute is assigned:
every column attribute is None (no column default is declared on Example;
the id is produced by the database sequence only at flush time). -/
def exampleDefault : Row := { id := Value.none, code := Value.none, value := Value.none }

/-- Errors that the manager layer can produce.  The first three are the
domain errors declared in src/utils/manager/exceptions.py; the remaining
constructors model Python-level failures that escape the manager:
AttributeError (a name lookup that fails), ValueError (invalid argument),
a re-raised sqlalchemy IntegrityError, and any other database failure
(e.g. an OperationalError), tagged by an opaque code. -/
inductive DbCause where
  | uniqueViolation
  | foreignKeyViolation
  | otherCause
deriving DecidableEq, Inhabited

/-- Python-level error values observable from the embedded code. -/
inductive PyError where
  | alreadyExist
  | notFound
  | noReference
  | attributeError (name : String)
  | valueError (msg : String)
  | integrityError (cause : DbCause)
  | otherError (code : Nat)
deriving DecidableEq, Inhabited

/-- The attribute table of the module src/utils/manager/exceptions.py: the
classes it defines are AlreadyExist, NotFound and NoReference (and the
base ManagerException).  Note there is no attribute named AlreadyExists. -/
def exceptionsModule : String → Option PyError
  | "AlreadyExist" => some PyError.alreadyExist
  | "NotFound" => some PyError.notFound
  | "NoReference" => some PyError.noReference
  | _ => Option.none

/-- Evaluation of the Python statement `raise exceptions.N`: the attribute
N is looked up on the exceptions module first; if the module has no such
attribute the statement itself raises AttributeError(N). -/
def raiseFromExceptions (name : String) : PyError :=
  match exceptionsModule name with
  | some e => e
  | Option.none => PyError.attributeError name

/-- GenericManager._handle_db_errors (generic.py lines 158-163): dispatch
on the underlying cause of the caught IntegrityError; a unique violation
evaluates `exceptions.AlreadyExists`, a foreign-key violation evaluates
`exceptions.NoReference`, and any other cause is re-raised unchanged by
the bare `raise`. -/
def handle_db_errors : DbCause → PyError
  | DbCause.uniqueViolation => raiseFromExceptions "AlreadyExists"
  | DbCause.foreignKeyViolation => raiseFromExceptions "NoReference"
  | c => PyError.integrityError c

/-- The transactional session (the AsyncSession collaborator), reduced to
what the claims observe: rows already written to the database and visible
to queries (`persisted`), instances staged by `add` but not yet flushed
(`pending`), instances marked by `delete` but not yet flushed
(`deleting`), and the next value of the id sequence. -/
structure Session where
  persisted : List Row
  pending : List Row
  deleting : List Row
  nextId : Int
deriving DecidableEq, Inhabited

/-- db.rollback(): pending work of the transaction is discarded; rows
already durably persisted are untouched. -/
def Session.rollback (s : Session) : Session :=
  { s with pending := [], deleting := [] }

/-- Flush-time id assignment: a staged row whose primary key is still None
receives consecutive values of the sequence examples_id_seq. -/
def flushAssign (nid : Int) : List Row → List Row × Int
  | [] => ([], nid)
  | r :: rs =>
    match r.id with
    | Value.none =>
      let rest := flushAssign (nid + 1) rs
      ({ r with id := Value.int nid } :: rest.1, rest.2)
    | _ =>
      let rest := flushAssign nid rs
      (r :: rest.1, rest.2)

/-- The database work performed by a successful flush or commit: rows
marked for deletion are removed (by primary key), staged rows receive
sequence ids and become visible, and the staging areas empty. -/
def Session.flush (s : Session) : Session :=
  let kept := s.persisted.filter (fun r => decide (∀ dl ∈ s.deleting, dl.id ≠ r.id))
  let assigned := flushAssign s.nextId s.pending
  { persisted := kept ++ assigned.1, pending := [], deleting := [], nextId := assigned.2 }

/-- The `action` argument of save: commit the transaction or only flush.
Within the single-session world the claims live in, both make the staged
work visible to subsequent queries on the same session, so they receive
the same state transformation here. -/
inductive SaveAction where
  | commit
  | flush
deriving DecidableEq, Inhabited

/-- What the database does when save flushes/commits: success, an
IntegrityError with an underlying cause, or some other failure (such as an
OperationalError), which is not an IntegrityError. -/
inductive DbOutcome where
  | ok
  | integrityError (cause : DbCause)
  | otherError (code : Nat)
deriving DecidableEq, Inhabited

/-- GenericManager.save (generic.py lines 165-182): try the flush/commit;
on success refresh and return the instance; on IntegrityError roll back
and translate via _handle_db_errors; any exception that is not an
IntegrityError is not caught, so it propagates with no rollback performed
by save.  The refresh of the instance is modelled in the callers (create,
delete) where the claims observe it. -/
def save (s : Session) (inst : Option Row) (action : SaveAction)
    (outcome : DbOutcome) : Except PyError (Option Row) × Session :=
  match action, outcome with
  | _, DbOutcome.ok => (Except.ok inst, s.flush)
  | _, DbOutcome.integrityError c => (Except.error (handle_db_errors c), s.rollback)
  | _, DbOutcome.otherError n => (Except.error (PyError.otherError n), s)

/-- A filter predicate collected by _filter: equality between a column and
a value, or membership of a column in a list of values. -/
inductive FilterPred where
  | eq (field : String) (v : Value)
  | mem (field : String) (vs : List Value)
deriving DecidableEq, Inhabited

/-- The lazily-executed query representation built by the manager: the
projection (`["*"]` means full rows), eager-load relation names, the
filter predicates, the ordering rules (field and mode, in the order the
order_by clauses were added), and the pagination offset/limit. -/
structure Query where
  projection : List String
  load : List String
  filters : List FilterPred
  ordering : List (String × String)
  off : Option Int
  lim : Option Int
deriving DecidableEq, Inhabited

/-- GenericManager._select (generic.py lines 23-46): a fresh SELECT with
the requested projection and eager loads, no filters, no ordering, no
pagination. -/
def select_ (fields : List String) (load : List String) : Query :=
  { projection := fields, load := load, filters := [], ordering := [],
    off := Option.none, lim := Option.none }

/-- GenericManager._filter (generic.py lines 48-68): each keyword argument
adds one predicate; a key ending in `__in` compiles to a membership
predicate on the key with the suffix removed, any other key to an equality
predicate. -/
def filter_ (q : Query) (kwargs : List (String × Arg)) : Query :=
  kwargs.foldl
    (fun qq kv =>
      if kv.1.endsWith "__in" then
        { qq with filters := qq.filters ++
            [FilterPred.mem (kv.1.replace "__in" "")
              (match kv.2 with
               | Arg.vals vs => vs
               | Arg.val v => [v])] }
      else
        { qq with filters := qq.filters ++
            [FilterPred.eq kv.1
              (match kv.2 with
               | Arg.val v => v
               | Arg.vals _ => Value.none)] })
    q

/-- GenericManager._paginate (generic.py lines 70-83):
skip = (page - 1) * limit; the query receives offset skip and limit. -/
def paginate_ (q : Query) (page : Int) (lim : Int) : Query :=
  let skip := (page - 1) * lim
  { q with off := some skip, lim := some lim }

/-- One step of the loop of _order_by: a field that does not exist on the
model raises ValueError, otherwise an order clause (field, mode) is
appended. -/
def order_by_fold (mode : String) (q : Query) : List String → Except PyError Query
  | [] => Except.ok q
  | f :: rest =>
    if f ∈ exampleFields then
      order_by_fold mode { q with ordering := q.ordering ++ [(f, mode)] } rest
    else
      Except.error (PyError.valueError "field does not exist in the model")

/-- GenericManager._order_by (generic.py lines 85-113): a mode other than
asc or desc raises ValueError before any field is examined; then each
field is checked against the model attributes and appended as an order
clause.  (A single string argument is the singleton list here; error
message texts are abbreviated.) -/
def order_by_ (q : Query) (fields : List String) (mode : String) :
    Except PyError Query :=
  if mode ≠ "asc" ∧ mode ≠ "desc" then
    Except.error (PyError.valueError "invalid sorting mode")
  else
    order_by_fold mode q fields

/-- Evaluation of a filter predicate on a row. -/
def FilterPred.holds (r : Row) : FilterPred → Bool
  | FilterPred.eq f v => decide (r.get f = v)
  | FilterPred.mem f vs => decide (r.get f ∈ vs)

/-- Ordering comparison on column values used by the model database when
it sorts rows (the claims never depend on the resulting order, only on
which rows are returned). -/
def Value.le : Value → Value → Bool
  | Value.none, _ => true
  | Value.int _, Value.none => false
  | Value.int a, Value.int b => decide (a ≤ b)
  | Value.int _, Value.str _ => true
  | Value.str _, Value.none => false
  | Value.str _, Value.int _ => false
  | Value.str a, Value.str b => decide (a ≤ b)

/-- Insertion into a sorted list, used by the model database for ORDER BY. -/
def insertBy (le : Row → Row → Bool) (x : Row) : List Row → List Row
  | [] => [x]
  | y :: ys => if le x y then x :: y :: ys else y :: insertBy le x ys

/-- Insertion sort, used by the model database for ORDER BY. -/
def sortBy (le : Row → Row → Bool) : List Row → List Row
  | [] => []
  | x :: xs => insertBy le x (sortBy le xs)

/-- One ORDER BY clause applied by the model database. -/
def applyOrderClause (rows : List Row) (c : String × String) : List Row :=
  sortBy
    (fun a b =>
      if c.2 = "desc" then Value.le (b.get c.1) (a.get c.1)
      else Value.le (a.get c.1) (b.get c.1))
    rows

/-- OFFSET and LIMIT applied by the model database. -/
def applyOffsetLimit (off lim : Option Int) (rows : List Row) : List Row :=
  let r1 := match off with
            | Option.none => rows
            | some k => rows.drop k.toNat
  match lim with
  | Option.none => r1
  | some k => r1.take k.toNat

/-- db.execute(query): the model database returns the persisted rows that
satisfy every filter, ordered by the collected order clauses, with offset
and limit applied. -/
def runQuery (s : Session) (q : Query) : List Row :=
  let filtered := s.persisted.filter (fun r => q.filters.all (FilterPred.holds r))
  let ordered := q.ordering.foldl applyOrderClause filtered
  applyOffsetLimit q.off q.lim ordered

/-- GenericManager._get_scalar (generic.py lines 134-156): execute the
query, take the first scalar; when raise_error is true and no instance is
found, `raise exceptions.NotFound`. -/
def get_scalar (s : Session) (q : Query) (raise_error : Bool) :
    Except PyError (Option Row) :=
  match (runQuery s q).head? with
  | some r => Except.ok (some r)
  | Option.none =>
    if raise_error then Except.error (raiseFromExceptions "NotFound")
    else Except.ok Option.none

/-- GenericManager._get_all_scalars (generic.py lines 115-132): execute
the query and return all scalars. -/
def get_all_scalars (s : Session) (q : Query) : List Row :=
  runQuery s q

/-- A Python instance attribute: either it was never assigned (so reading
it raises AttributeError) or it holds a value, possibly None. -/
inductive Attr (α : Type) where
  | absent
  | val (v : Option α)
deriving DecidableEq, Inhabited

/-- The mutable builder state held on the manager instance: the attributes
_db and _query.  The class defines ___init__ (with three underscores), so
no constructor ever assigns these attributes; on a freshly constructed
manager both are absent. -/
structure ManagerState where
  db : Attr Session
  query : Attr Query
deriving DecidableEq, Inhabited

/-- The state of a freshly constructed GenericManager: _db and _query were
never assigned. -/
def freshState : ManagerState :=
  { db := Attr.absent, query := Attr.absent }

/-- GenericManager._reset (generic.py lines 184-189): _db and _query are
assigned None. -/
def resetState : ManagerState :=
  { db := Attr.val Option.none, query := Attr.val Option.none }

/-- GenericManager.query (generic.py lines 191-203): bind the session and
build the filtered select.  Starting from any prior state, the attributes
are simply overwritten. -/
def queryM (s : Session) (fields : List String) (load : List String)
    (kwargs : List (String × Arg)) : ManagerState :=
  { db := Attr.val (some s), query := Attr.val (some (filter_ (select_ fields load) kwargs)) }

/-- GenericManager.paginate (generic.py lines 205-211): reading self._query
on a fresh instance raises AttributeError; when the attribute is None the
method is a no-op; otherwise _paginate is applied. -/
def paginateM (m : ManagerState) (page : Int) (lim : Int) :
    Except PyError ManagerState :=
  match m.query with
  | Attr.absent => Except.error (PyError.attributeError "_query")
  | Attr.val Option.none => Except.ok m
  | Attr.val (some q) => Except.ok { m with query := Attr.val (some (paginate_ q page lim)) }

/-- GenericManager.order_by (generic.py lines 213-219): reading self._query
on a fresh instance raises AttributeError; when the attribute is None the
method is a no-op; otherwise _order_by is applied and its ValueError
propagates. -/
def orderByM (m : ManagerState) (fields : List String) (mode : String) :
    Except PyError ManagerState :=
  match m.query with
  | Attr.absent => Except.error (PyError.attributeError "_query")
  | Attr.val Option.none => Except.ok m
  | Attr.val (some q) =>
    match order_by_ q fields mode with
    | Except.ok q2 => Except.ok { m with query := Attr.val (some q2) }
    | Except.error e => Except.error e

/-- GenericManager.one (generic.py lines 221-231): `self._db is not None`
is evaluated first (AttributeError on a fresh instance; short-circuit when
None), then `self._query is not None`; when both are bound, _get_scalar
runs and, only if it returns rather than raises, _reset clears the state;
an unbound state returns None. -/
def oneM (m : ManagerState) (raise_error : Bool) :
    Except PyError (Option Row) × ManagerState :=
  match m.db with
  | Attr.absent => (Except.error (PyError.attributeError "_db"), m)
  | Attr.val Option.none => (Except.ok Option.none, m)
  | Attr.val (some s) =>
    match m.query with
    | Attr.absent => (Except.error (PyError.attributeError "_query"), m)
    | Attr.val Option.none => (Except.ok Option.none, m)
    | Attr.val (some q) =>
      match get_scalar s q raise_error with
      | Except.error e => (Except.error e, m)
      | Except.ok r => (Except.ok r, resetState)

/-- GenericManager.all (generic.py lines 233-241): like one, but the whole
result list is returned and an unbound state returns the empty list. -/
def allM (m : ManagerState) : Except PyError (List Row) × ManagerState :=
  match m.db with
  | Attr.absent => (Except.error (PyError.attributeError "_db"), m)
  | Attr.val Option.none => (Except.ok [], m)
  | Attr.val (some s) =>
    match m.query with
    | Attr.absent => (Except.error (PyError.attributeError "_query"), m)
    | Attr.val Option.none => (Except.ok [], m)
    | Attr.val (some q) =>
      (Except.ok (get_all_scalars s q), resetState)

/-- schema.model_dump(exclude_unset=True, exclude=exclude): the payload is
given as the association list of the fields explicitly set on the schema
(exclude_unset drops the rest); the dump then removes the keys listed in
exclude. -/
def model_dump (payload : List (String × Value)) (exclude : List String) :
    List (String × Value) :=
  payload.filter (fun fv => decide (fv.1 ∉ exclude))

/-- The model constructor `self.model(**kwargs)`: start from the default
instance (every column None) and assign each keyword argument. -/
def exampleNew (kwargs : List (String × Value)) : Row :=
  kwargs.foldl (fun r fv => r.set fv.1 fv.2) exampleDefault

/-- GenericManager.create (generic.py lines 243-291) in the persisting case
(save=True, the instance built from a schema): instantiate the model from
the dumped payload, stage it with db.add, and run save.  The Example model
declares no created_by attribute, so the author branch never assigns.  On
success the refresh re-reads the instance from the database, so the
returned row carries the id the sequence assigned at flush; the staged
instance was appended last, so it is the last row the flush produced. -/
def create (s : Session) (payload : List (String × Value)) (exclude : List String)
    (action : SaveAction) (outcome : DbOutcome) : Except PyError Row × Session :=
  let inst := exampleNew (model_dump payload exclude)
  let s1 := { s with pending := s.pending ++ [inst] }
  match save s1 (some inst) action outcome with
  | (Except.ok _, s2) =>
    (Except.ok ((flushAssign s1.nextId s1.pending).1.getLastD inst), s2)
  | (Except.error e, s2) => (Except.error e, s2)

/-- The field-overwriting loop of GenericManager.update (generic.py lines
326-329): for every field in the dumped payload (explicitly set, not
excluded), setattr the value on the instance. -/
def update_apply (inst : Row) (payload : List (String × Value))
    (exclude : List String) : Row :=
  (model_dump payload exclude).foldl (fun r fv => r.set fv.1 fv.2) inst

/-- GenericManager.update (generic.py lines 293-332) in the persisting
case: overwrite the dumped payload fields on the instance, then save. -/
def update (s : Session) (inst : Row) (payload : List (String × Value))
    (exclude : List String) (action : SaveAction) (outcome : DbOutcome) :
    Except PyError Row × Session :=
  let inst2 := update_apply inst payload exclude
  match save s (some inst2) action outcome with
  | (Except.ok _, s2) => (Except.ok inst2, s2)
  | (Except.error e, s2) => (Except.error e, s2)

/-- GenericManager.delete (generic.py lines 335-356): db.delete marks the
instance for removal, save persists the transaction, and the instance
value is returned (the caller may still read its last-known fields). -/
def deleteOp (s : Session) (inst : Row) (action : SaveAction)
    (outcome : DbOutcome) : Except PyError Row × Session :=
  let s1 := { s with deleting := s.deleting ++ [inst] }
  match save s1 (some inst) action outcome with
  | (Except.ok _, s2) => (Except.ok inst, s2)
  | (Except.error e, s2) => (Except.error e, s2)

/-- A result that is an invalid-argument (ValueError) failure. -/
def isValueError : Except PyError ManagerState → Prop
  | Except.error (PyError.valueError _) => True
  | _ => False

/-- An empty database session whose id sequence starts at 1. -/
def exDb : Session :=
  { persisted := [], pending := [], deleting := [], nextId := 1 }

/-- A session with one staged (not yet flushed) instance. -/
def exDbPending : Session :=
  { persisted := [], pending := [exampleDefault], deleting := [], nextId := 1 }

/-- A builder state holding a bound session and a plain select. -/
def exHeld : ManagerState :=
  { db := Attr.val (some exDb), query := Attr.val (some (select_ ["*"] [])) }

/-- Claim C1: on a uniqueness-constraint violation save does roll the
session back (pending work is discarded, previously persisted rows are
untouched), but the subsequent `raise exceptions.AlreadyExists` in
_handle_db_errors looks up an attribute the exceptions module does not
define (the class is named AlreadyExist), so the failure surfaced is an
AttributeError, not the AlreadyExists domain error the claim and the
docstring of create describe. -/
theorem c1_unique_violation_rolls_back_but_raises_attribute_error
    (s : Session) (inst : Option Row) (action : SaveAction) :
    save s inst action (DbOutcome.integrityError DbCause.uniqueViolation)
      = (Except.error (PyError.attributeError "AlreadyExists"), s.rollback) ∧
    s.rollback.persisted = s.persisted ∧ s.rollback.pending = [] := by
  refine ⟨?_, rfl, rfl⟩
  cases action <;> rfl

/-- Claim C2, counterexample: a failure of flush/commit that is not an
IntegrityError (modelled by DbOutcome.otherError) is not caught by save,
so no rollback happens: the session still holds its staged instance,
refuting that every other underlying failure causes a session rollback. -/
theorem c2_counterexample_non_integrity_failure_skips_rollback :
    (save exDbPending Option.none SaveAction.commit (DbOutcome.otherError 0)).2
        = exDbPending ∧
    exDbPending.pending ≠ [] ∧
    exDbPending.rollback ≠ exDbPending := by
  refine ⟨rfl, by decide, by decide⟩

/-- Claim C2 as amended: a foreign-key violation rolls back and fails with
NoReference; an IntegrityError with any other cause rolls back and is
re-raised unchanged; a failure that is not an IntegrityError is propagated
unchanged, but save performs no rollback for it. -/
theorem c2_amended_fk_rolls_back_other_failures_propagate
    (s : Session) (inst : Option Row) (action : SaveAction) :
    save s inst action (DbOutcome.integrityError DbCause.foreignKeyViolation)
      = (Except.error PyError.noReference, s.rollback) ∧
    save s inst action (DbOutcome.integrityError DbCause.otherCause)
      = (Except.error (PyError.integrityError DbCause.otherCause), s.rollback) ∧
    (∀ n, save s inst action (DbOutcome.otherError n)
      = (Except.error (PyError.otherError n), s)) := by
  cases action <;> exact ⟨rfl, rfl, fun n => rfl⟩

/-- Claim C4, counterexample: on a freshly constructed manager the
attributes _db and _query were never assigned (the class defines
___init__, not __init__, and even that method does not set them), so one()
and all() fault with AttributeError instead of returning None and the
empty list. -/
theorem c4_counterexample_fresh_manager_faults :
    (oneM freshState true).1 = Except.error (PyError.attributeError "_db") ∧
    (oneM freshState false).1 = Except.error (PyError.attributeError "_db") ∧
    (allM freshState).1 = Except.error (PyError.attributeError "_db") :=
  ⟨rfl, rfl, rfl⟩

/-- Claim C4 as amended: whenever the state attributes exist but are
unbound — _db is None, or _db is bound and _query is None, which is
exactly the state after the reset performed by a completed execution —
one() returns None and all() returns the empty list without raising; a
freshly constructed manager, whose attributes were never assigned, instead
faults with AttributeError. -/
theorem c4_amended_unbound_state_returns_empty (m : ManagerState)
    (h : m.db = Attr.val Option.none ∨
         ((∃ s, m.db = Attr.val (some s)) ∧ m.query = Attr.val Option.none)) :
    (∀ b, (oneM m b).1 = Except.ok Option.none) ∧ (allM m).1 = Except.ok [] := by
  rcases h with h | ⟨⟨s, hs⟩, hq⟩
  · constructor
    · intro b; unfold oneM; rw [h]
    · unfold allM; rw [h]
  · constructor
    · intro b; unfold oneM; rw [hs, hq]
    · unfold allM; rw [hs, hq]

/-- Claim C4 witness: the reset state returns None and the empty list. -/
theorem c4_amended_unbound_state_returns_empty_witness :
    (oneM resetState true).1 = Except.ok Option.none ∧
    (allM resetState).1 = Except.ok [] :=
  ⟨(c4_amended_unbound_state_returns_empty resetState (Or.inl rfl)).1 true,
   (c4_amended_unbound_state_returns_empty resetState (Or.inl rfl)).2⟩

/-- Claim C5: for page at least 1 and positive limit, paginate on a held
query applies offset (page - 1) * limit and row limit `limit`; page 1
gives offset 0 and the offset is never negative. -/
theorem c5_paginate_applies_offset_and_limit (m : ManagerState) (q : Query)
    (hq : m.query = Attr.val (some q)) (page lim : Int)
    (hp : 1 ≤ page) (hl : 0 < lim) :
    paginateM m page lim
      = Except.ok { m with query := Attr.val (some (paginate_ q page lim)) } ∧
    (paginate_ q page lim).off = some ((page - 1) * lim) ∧
    (paginate_ q page lim).lim = some lim ∧
    0 ≤ (page - 1) * lim ∧
    (page = 1 → (paginate_ q page lim).off = some 0) := by
  refine ⟨?_, rfl, rfl, ?_, ?_⟩
  · unfold paginateM; rw [hq]
  · exact mul_nonneg (by linarith) (le_of_lt hl)
  · intro h; subst h; simp [paginate_]

/-- Claim C5 witness: page 2 with limit 10 on a held query gives offset 10
and limit 10. -/
theorem c5_paginate_applies_offset_and_limit_witness :
    paginateM exHeld 2 10
      = Except.ok { exHeld with
          query := Attr.val (some (paginate_ (select_ ["*"] []) 2 10)) } ∧
    (paginate_ (select_ ["*"] []) 2 10).off = some ((2 - 1) * 10) ∧
    0 ≤ ((2 : Int) - 1) * 10 :=
  ⟨(c5_paginate_applies_offset_and_limit exHeld (select_ ["*"] []) rfl 2 10
      (by decide) (by decide)).1,
   (c5_paginate_applies_offset_and_limit exHeld (select_ ["*"] []) rfl 2 10
      (by decide) (by decide)).2.1,
   (c5_paginate_applies_offset_and_limit exHeld (select_ ["*"] []) rfl 2 10
      (by decide) (by decide)).2.2.2.1⟩

/-- Claim C10, counterexample: on a builder whose query state was never
bound by query() — a freshly constructed manager — paginate and order_by
are not silent no-ops: reading the never-assigned _query attribute raises
AttributeError. -/
theorem c10_counterexample_fresh_builder_faults :
    paginateM freshState 1 10 = Except.error (PyError.attributeError "_query") ∧
    orderByM freshState ["code"] "desc"
      = Except.error (PyError.attributeError "_query") :=
  ⟨rfl, rfl⟩

/-- Claim C10 as amended: on a builder whose _query attribute is set to
None — the state after the reset performed by one()/all() — paginate and
order_by return the builder unchanged and raise nothing, even for an
invalid mode or an unknown field; on a freshly constructed builder the
attribute read faults instead. -/
theorem c10_amended_noop_when_query_is_none (m : ManagerState)
    (hq : m.query = Attr.val Option.none)
    (page lim : Int) (fields : List String) (mode : String) :
    paginateM m page lim = Except.ok m ∧ orderByM m fields mode = Except.ok m := by
  constructor
  · unfold paginateM; rw [hq]
  · unfold orderByM; rw [hq]

/-- Claim C10 witness: after a reset, paginate with out-of-range arguments
and order_by with an unknown field and an invalid mode are both no-ops. -/
theorem c10_amended_noop_when_query_is_none_witness :
    paginateM resetState 0 (-5) = Except.ok resetState ∧
    orderByM resetState ["no_such_field"] "upwards" = Except.ok resetState :=
  c10_amended_noop_when_query_is_none resetState rfl 0 (-5) ["no_such_field"] "upwards"

/-- The order_by field loop fails with ValueError whenever some requested
field is not an attribute of the model. -/
lemma order_by_fold_error_of_unknown_field (mode : String) (q : Query)
    (fields : List String) (h : ∃ f ∈ fields, f ∉ exampleFields) :
    order_by_fold mode q fields
      = Except.error (PyError.valueError "field does not exist in the model") := by
  induction fields generalizing q with
  | nil => rcases h with ⟨f, hf, _⟩; cases hf
  | cons a rest ih =>
    rcases h with ⟨f, hf, hnf⟩
    by_cases ha : a ∈ exampleFields
    · rw [order_by_fold, if_pos ha]
      apply ih
      rcases List.mem_cons.mp hf with heq | hm
      · exact absurd ha (heq ▸ hnf)
      · exact ⟨f, hm, hnf⟩
    · rw [order_by_fold, if_neg ha]

/-- Claim C3, counterexample: order_by with an unknown field name does not
always fail — invoked after a reset (the held query is None), it silently
returns the unchanged builder without examining mode or fields. -/
theorem c3_counterexample_order_by_silent_without_query :
    orderByM resetState ["nonexistent"] "asc" = Except.ok resetState := rfl

/-- Claim C3 as amended: on a builder that holds a query (query() was
called and not yet executed), order_by with a mode other than asc/desc or
with any field that does not exist on the entity type fails with a
ValueError, before anything is executed against the session; on a builder
with no held query, order_by is a silent no-op. -/
theorem c3_amended_order_by_validates_on_held_query (m : ManagerState)
    (q : Query) (hq : m.query = Attr.val (some q))
    (fields : List String) (mode : String)
    (hbad : ¬(mode = "asc" ∨ mode = "desc") ∨ ∃ f ∈ fields, f ∉ exampleFields) :
    isValueError (orderByM m fields mode) := by
  have herr : (order_by_ q fields mode
        = Except.error (PyError.valueError "invalid sorting mode")) ∨
      (order_by_ q fields mode
        = Except.error (PyError.valueError "field does not exist in the model")) := by
    unfold order_by_
    by_cases hm : mode ≠ "asc" ∧ mode ≠ "desc"
    · exact Or.inl (by rw [if_pos hm])
    · rcases hbad with hmode | hfield
      · exact absurd (by tauto) hm
      · refine Or.inr ?_
        rw [if_neg hm]
        exact order_by_fold_error_of_unknown_field mode q fields hfield
  obtain ⟨mdb, mq⟩ := m
  dsimp only at hq
  subst hq
  rcases herr with h | h <;> simp [orderByM, h, isValueError]

/-- Claim C3 witness: on a held query, order_by with an unknown field
fails with a ValueError. -/
theorem c3_amended_order_by_validates_on_held_query_witness :
    isValueError (orderByM exHeld ["unknown_field"] "desc") :=
  c3_amended_order_by_validates_on_held_query exHeld (select_ ["*"] []) rfl
    ["unknown_field"] "desc" (Or.inr ⟨"unknown_field", by decide, by decide⟩)

/-- Claim C9: a completed execution resets the builder: when one() returns
(rather than raises) the state afterwards is the reset state, and all()
always resets; the reset state binds no session and holds no query, so no
filter, ordering or pagination survives into the next use. -/
theorem c9_completed_execution_resets_state (m : ManagerState) (s : Session)
    (q : Query) (hdb : m.db = Attr.val (some s))
    (hq : m.query = Attr.val (some q)) :
    (∀ b r, (oneM m b).1 = Except.ok r → (oneM m b).2 = resetState) ∧
    (allM m).2 = resetState ∧
    resetState.db = Attr.val Option.none ∧
    resetState.query = Attr.val Option.none := by
  refine ⟨?_, ?_, rfl, rfl⟩
  · intro b r hok
    cases hgs : get_scalar s q b with
    | error e => simp [oneM, hdb, hq, hgs] at hok
    | ok r2 => simp [oneM, hdb, hq, hgs]
  · simp [allM, hdb, hq]

/-- Claim C9 witness: executing one (with raise_error false) and all on a
held query resets the builder state. -/
theorem c9_completed_execution_resets_state_witness :
    (oneM exHeld false).2 = resetState ∧ (allM exHeld).2 = resetState :=
  ⟨(c9_completed_execution_resets_state exHeld exDb (select_ ["*"] []) rfl rfl).1
      false Option.none rfl,
   (c9_completed_execution_resets_state exHeld exDb (select_ ["*"] []) rfl rfl).2.1⟩

/-- Writing a declared field and reading it back yields the value. -/
lemma Row.get_set_self (r : Row) (f : String) (v : Value)
    (hf : f ∈ exampleFields) : (r.set f v).get f = v := by
  simp only [exampleFields, List.mem_cons, List.mem_singleton,
    List.not_mem_nil, or_false] at hf
  rcases hf with rfl | rfl | rfl <;> rfl

/-- Writing one field does not change the value read at any other name. -/
lemma Row.get_set_other (r : Row) (f g : String) (v : Value) (hne : f ≠ g) :
    (r.set f v).get g = r.get g := by
  unfold Row.set Row.get
  by_cases h1 : f = "id" <;> by_cases g1 : g = "id" <;>
    by_cases h2 : f = "code" <;> by_cases g2 : g = "code" <;>
    by_cases h3 : f = "value" <;> by_cases g3 : g = "value" <;>
    simp_all

/-- A setattr loop leaves every name that the assignment list does not
mention with its previous value. -/
lemma foldl_set_get_notmem (r : Row) (l : List (String × Value)) (f : String)
    (h : f ∉ l.map Prod.fst) :
    (l.foldl (fun a fv => a.set fv.1 fv.2) r).get f = r.get f := by
  induction l generalizing r with
  | nil => rfl
  | cons p rest ih =>
    simp only [List.map_cons, List.mem_cons, not_or] at h
    rw [List.foldl_cons, ih _ h.2]
    exact Row.get_set_other r p.1 f p.2 (fun he => h.1 he.symm)

/-- A setattr loop over a duplicate-free assignment list stores each
assigned value at its name. -/
lemma foldl_set_get_mem (r : Row) (l : List (String × Value)) (f : String)
    (v : Value) (hnd : (l.map Prod.fst).Nodup) (hmem : (f, v) ∈ l)
    (hf : f ∈ exampleFields) :
    (l.foldl (fun a fv => a.set fv.1 fv.2) r).get f = v := by
  induction l generalizing r with
  | nil => cases hmem
  | cons p rest ih =>
    simp only [List.map_cons, List.nodup_cons] at hnd
    rcases List.mem_cons.mp hmem with heq | hm
    · subst heq
      rw [List.foldl_cons, foldl_set_get_notmem _ rest f hnd.1]
      exact Row.get_set_self r f v hf
    · rw [List.foldl_cons]
      exact ih (r.set p.1 p.2) hnd.2 hm

/-- A name listed in exclude never appears among the dumped keys. -/
lemma notmem_model_dump_keys_of_exclude (payload : List (String × Value))
    (exclude : List String) (f : String) (h : f ∉ payload.map Prod.fst ∨ f ∈ exclude) :
    f ∉ (model_dump payload exclude).map Prod.fst := by
  intro hmem
  rcases List.mem_map.mp hmem with ⟨fv, hfv, hfst⟩
  have hf := List.mem_filter.mp hfv
  rcases h with h1 | h2
  · exact h1 (List.mem_map.mpr ⟨fv, hf.1, hfst⟩)
  · exact (of_decide_eq_true hf.2) (hfst ▸ h2)

/-- The dumped keys are duplicate-free whenever the payload keys are. -/
lemma model_dump_keys_nodup (payload : List (String × Value))
    (exclude : List String) (hnd : (payload.map Prod.fst).Nodup) :
    ((model_dump payload exclude).map Prod.fst).Nodup :=
  ((List.filter_sublist payload).map Prod.fst).nodup hnd

/-- Claim C7: the update loop overwrites exactly the fields explicitly set
in the payload and not excluded, and leaves every other field of the
instance identical to its pre-update value.  (This is the state of the
instance that update then hands to save.) -/
theorem c7_update_overwrites_exactly_the_payload (inst : Row)
    (payload : List (String × Value)) (exclude : List String)
    (hnd : (payload.map Prod.fst).Nodup) :
    (∀ f v, (f, v) ∈ payload → f ∉ exclude → f ∈ exampleFields →
      (update_apply inst payload exclude).get f = v) ∧
    (∀ f, f ∉ payload.map Prod.fst ∨ f ∈ exclude →
      (update_apply inst payload exclude).get f = inst.get f) := by
  constructor
  · intro f v hm hex hf
    exact foldl_set_get_mem inst (model_dump payload exclude) f v
      (model_dump_keys_nodup payload exclude hnd)
      (List.mem_filter.mpr ⟨hm, decide_eq_true hex⟩) hf
  · intro f hf
    exact foldl_set_get_notmem inst (model_dump payload exclude) f
      (notmem_model_dump_keys_of_exclude payload exclude f hf)

/-- Claim C7 witness: updating a concrete row with a payload that sets
only code overwrites code and leaves id and value untouched. -/
theorem c7_update_overwrites_exactly_the_payload_witness :
    (update_apply { id := Value.int 1, code := Value.str "a", value := Value.str "b" }
        [("code", Value.str "x")] []).get "code" = Value.str "x" ∧
    (update_apply { id := Value.int 1, code := Value.str "a", value := Value.str "b" }
        [("code", Value.str "x")] []).get "value" = Value.str "b" :=
  ⟨(c7_update_overwrites_exactly_the_payload
      { id := Value.int 1, code := Value.str "a", value := Value.str "b" }
      [("code", Value.str "x")] [] (by decide)).1 "code" (Value.str "x")
      (by decide) (by decide) (by decide),
   (c7_update_overwrites_exactly_the_payload
      { id := Value.int 1, code := Value.str "a", value := Value.str "b" }
      [("code", Value.str "x")] [] (by decide)).2 "value" (Or.inl (by decide))⟩

/-- Reading the id attribute. -/
lemma Row.get_id (r : Row) : r.get "id" = r.id := rfl

/-- The refreshed instance a successful create returns on a clean session:
the row built from the dumped payload carrying the id the sequence
assigned at flush (a derived abbreviation used to state the claims about
create). -/
def createdRow (d : Session) (payload : List (String × Value))
    (exclude : List String) : Row :=
  { exampleNew (model_dump payload exclude) with id := Value.int d.nextId }

/-- A payload that does not explicitly set id builds an instance whose id
is still None when it is staged (the sequence fills it at flush). -/
lemma exampleNew_id_none (payload : List (String × Value))
    (exclude : List String) (hid : "id" ∉ payload.map Prod.fst) :
    (exampleNew (model_dump payload exclude)).id = Value.none := by
  have h := foldl_set_get_notmem exampleDefault (model_dump payload exclude) "id"
    (notmem_model_dump_keys_of_exclude payload exclude "id" (Or.inl hid))
  rw [Row.get_id, Row.get_id] at h
  exact h

/-- Flushing a single staged row with no id assigns the next sequence
value. -/
lemma flushAssign_single (nid : Int) (r : Row) (h : r.id = Value.none) :
    flushAssign nid [r] = ([{ r with id := Value.int nid }], nid + 1) := by
  unfold flushAssign
  rw [h]
  rfl

/-- Flushing a session with nothing marked for deletion keeps every
persisted row and appends the flushed staged rows. -/
lemma flush_no_deleting (s : Session) (hdel : s.deleting = []) :
    s.flush = { persisted := s.persisted ++ (flushAssign s.nextId s.pending).1,
                pending := [], deleting := [],
                nextId := (flushAssign s.nextId s.pending).2 } := by
  unfold Session.flush
  rw [hdel]
  simp

/-- The query built by query(db, id=v) holds exactly one equality filter
on id. -/
lemma filter_id (v : Value) :
    filter_ (select_ ["*"] []) [("id", Arg.val v)]
      = { projection := ["*"], load := [], filters := [FilterPred.eq "id" v],
          ordering := [], off := Option.none, lim := Option.none } := rfl

/-- Executing the id-equality query returns exactly the persisted rows
whose id is the requested value. -/
lemma runQuery_id (s : Session) (v : Value) :
    runQuery s (filter_ (select_ ["*"] []) [("id", Arg.val v)])
      = s.persisted.filter (fun r => decide (r.id = v)) := by
  rw [filter_id]
  unfold runQuery applyOffsetLimit
  simp [FilterPred.holds, Row.get_id]

/-- one() on a freshly built query state executes _get_scalar and resets
on return. -/
lemma oneM_queryM (s : Session) (fields load : List String)
    (kwargs : List (String × Arg)) (b : Bool) :
    oneM (queryM s fields load kwargs) b
      = match get_scalar s (filter_ (select_ fields load) kwargs) b with
        | Except.error e => (Except.error e, queryM s fields load kwargs)
        | Except.ok r => (Except.ok r, resetState) := rfl

/-- A successful create on a clean session (nothing staged, nothing
marked for deletion) returns the refreshed instance and appends exactly
that row to the persisted rows, advancing the sequence by one. -/
lemma create_ok_clean (d : Session) (payload : List (String × Value))
    (exclude : List String) (action : SaveAction)
    (hpend : d.pending = []) (hdel : d.deleting = [])
    (hid : "id" ∉ payload.map Prod.fst) :
    create d payload exclude action DbOutcome.ok
      = (Except.ok (createdRow d payload exclude),
         { persisted := d.persisted ++ [createdRow d payload exclude],
           pending := [], deleting := [], nextId := d.nextId + 1 }) := by
  have hidnone := exampleNew_id_none payload exclude hid
  unfold create
  cases action <;>
  · simp only [save]
    rw [flush_no_deleting _ (by simp [hdel])]
    simp only [hpend, List.nil_append]
    rw [flushAssign_single d.nextId _ hidnone]
    rfl

/-- At any field other than the id, the refreshed instance agrees with the
instance built from the dumped payload. -/
lemma createdRow_get_ne_id (d : Session) (payload : List (String × Value))
    (exclude : List String) (f : String) (hne : f ≠ "id") :
    (createdRow d payload exclude).get f
      = (exampleNew (model_dump payload exclude)).get f := by
  unfold createdRow Row.get
  split_ifs with h1
  · exact absurd h1 hne
  · rfl
  · rfl
  · rfl

/-- Claim C6: creating from a payload on a clean session and immediately
querying by the generated identity with one() returns the created entity;
its fields explicitly present in the payload (and not excluded) carry the
payload values, its other declared fields carry the entity defaults (every
column of Example defaults to None), and its id carries the next sequence
value, which is the declared default generator of the primary key. -/
theorem c6_create_then_one_returns_payload_fields
    (d : Session) (payload : List (String × Value)) (exclude : List String)
    (action : SaveAction)
    (hpend : d.pending = []) (hdel : d.deleting = [])
    (hid : "id" ∉ payload.map Prod.fst)
    (hnd : (payload.map Prod.fst).Nodup)
    (hfresh : ∀ r ∈ d.persisted, r.id ≠ Value.int d.nextId) :
    (create d payload exclude action DbOutcome.ok).1
      = Except.ok (createdRow d payload exclude) ∧
    (oneM (queryM (create d payload exclude action DbOutcome.ok).2 ["*"] []
        [("id", Arg.val (Value.int d.nextId))]) true).1
      = Except.ok (some (createdRow d payload exclude)) ∧
    (createdRow d payload exclude).id = Value.int d.nextId ∧
    (∀ f v, (f, v) ∈ payload → f ∉ exclude → f ∈ exampleFields →
      (createdRow d payload exclude).get f = v) ∧
    (∀ f, f ∈ exampleFields → f ≠ "id" →
      (f ∉ payload.map Prod.fst ∨ f ∈ exclude) →
      (createdRow d payload exclude).get f = exampleDefault.get f) := by
  have hcreate := create_ok_clean d payload exclude action hpend hdel hid
  refine ⟨by rw [hcreate], ?_, rfl, ?_, ?_⟩
  · rw [hcreate, oneM_queryM]
    have hrun : runQuery
        { persisted := d.persisted ++ [createdRow d payload exclude],
          pending := [], deleting := [], nextId := d.nextId + 1 }
        (filter_ (select_ ["*"] []) [("id", Arg.val (Value.int d.nextId))])
        = [createdRow d payload exclude] := by
      rw [runQuery_id]
      show (d.persisted ++ [createdRow d payload exclude]).filter
          (fun r => decide (r.id = Value.int d.nextId)) = _
      rw [List.filter_append]
      have h1 : d.persisted.filter (fun r => decide (r.id = Value.int d.nextId)) = [] := by
        rw [List.filter_eq_nil_iff]
        intro r hr
        simpa using hfresh r hr
      have h2 : [createdRow d payload exclude].filter
          (fun r => decide (r.id = Value.int d.nextId)) = [createdRow d payload exclude] := by
        simp [createdRow]
      rw [h1, h2, List.nil_append]
    unfold get_scalar
    rw [hrun]
    rfl
  · intro f v hm hex hf
    have hne : f ≠ "id" := fun he => hid (he ▸ List.mem_map.mpr ⟨(f, v), hm, rfl⟩)
    rw [createdRow_get_ne_id d payload exclude f hne]
    exact foldl_set_get_mem exampleDefault (model_dump payload exclude) f v
      (model_dump_keys_nodup payload exclude hnd)
      (List.mem_filter.mpr ⟨hm, decide_eq_true hex⟩) hf
  · intro f _ hne hout
    rw [createdRow_get_ne_id d payload exclude f hne]
    exact foldl_set_get_notmem exampleDefault (model_dump payload exclude) f
      (notmem_model_dump_keys_of_exclude payload exclude f hout)

/-- Claim C6 witness: creating from payload code = "a" on the empty
session and querying id = 1 returns the row (1, "a", None): code from the
payload, value at its default None, id the first sequence value. -/
theorem c6_create_then_one_returns_payload_fields_witness :
    (oneM (queryM (create exDb [("code", Value.str "a")] [] SaveAction.commit
        DbOutcome.ok).2 ["*"] [] [("id", Arg.val (Value.int exDb.nextId))]) true).1
      = Except.ok (some (createdRow exDb [("code", Value.str "a")] [])) ∧
    (createdRow exDb [("code", Value.str "a")] []).get "code" = Value.str "a" ∧
    (createdRow exDb [("code", Value.str "a")] []).get "value"
      = exampleDefault.get "value" :=
  ⟨(c6_create_then_one_returns_payload_fields exDb [("code", Value.str "a")] []
      SaveAction.commit rfl rfl (by decide) (by decide) (by simp [exDb])).2.1,
   (c6_create_then_one_returns_payload_fields exDb [("code", Value.str "a")] []
      SaveAction.commit rfl rfl (by decide) (by decide) (by simp [exDb])).2.2.2.1
      "code" (Value.str "a") (by decide) (by decide) (by decide),
   (c6_create_then_one_returns_payload_fields exDb [("code", Value.str "a")] []
      SaveAction.commit rfl rfl (by decide) (by decide) (by simp [exDb])).2.2.2.2
      "value" (by decide) (by decide) (Or.inl (by decide))⟩

/-- Claim C8: deleting an instance (under either transaction mode) and
then querying the same identity with one(raise_error = true) fails with
the NotFound domain error: the flush removed every row carrying the
instance's primary key, so the query comes back empty and _get_scalar
raises exceptions.NotFound. -/
theorem c8_delete_then_one_raises_not_found (d : Session) (inst : Row)
    (action : SaveAction) (hpend : d.pending = []) :
    (oneM (queryM (deleteOp d inst action DbOutcome.ok).2 ["*"] []
        [("id", Arg.val inst.id)]) true).1
      = Except.error PyError.notFound := by
  have hdel2 : (deleteOp d inst action DbOutcome.ok).2
      = { persisted := d.persisted.filter
            (fun r => decide (∀ dl ∈ d.deleting ++ [inst], dl.id ≠ r.id)),
          pending := [], deleting := [], nextId := d.nextId } := by
    unfold deleteOp
    cases action <;>
    · simp only [save]
      unfold Session.flush
      rw [hpend]
      simp [flushAssign]
  rw [hdel2, oneM_queryM]
  have hrun : runQuery
      { persisted := d.persisted.filter
          (fun r => decide (∀ dl ∈ d.deleting ++ [inst], dl.id ≠ r.id)),
        pending := [], deleting := [], nextId := d.nextId }
      (filter_ (select_ ["*"] []) [("id", Arg.val inst.id)]) = [] := by
    rw [runQuery_id]
    show (d.persisted.filter
        (fun r => decide (∀ dl ∈ d.deleting ++ [inst], dl.id ≠ r.id))).filter
        (fun r => decide (r.id = inst.id)) = []
    rw [List.filter_eq_nil_iff]
    intro r hr
    have hkept := List.mem_filter.mp hr
    have hall := of_decide_eq_true hkept.2
    have hne : inst.id ≠ r.id := hall inst (by simp)
    simp only [decide_eq_true_eq]
    exact fun he => hne he.symm
  unfold get_scalar
  rw [hrun]
  rfl

/-- Claim C8 witness: deleting the only persisted row and querying its id
raises NotFound. -/
theorem c8_delete_then_one_raises_not_found_witness :
    (oneM (queryM (deleteOp
        { persisted := [{ id := Value.int 3, code := Value.str "x", value := Value.none }],
          pending := [], deleting := [], nextId := 4 }
        { id := Value.int 3, code := Value.str "x", value := Value.none }
        SaveAction.commit DbOutcome.ok).2 ["*"] []
        [("id", Arg.val (Row.id { id := Value.int 3, code := Value.str "x", value := Value.none }))]) true).1
      = Except.error PyError.notFound :=
  c8_delete_then_one_raises_not_found
    { persisted := [{ id := Value.int 3, code := Value.str "x", value := Value.none }],
      pending := [], deleting := [], nextId := 4 }
    { id := Value.int 3, code := Value.str "x", value := Value.none }
    SaveAction.commit rfl

end FastapiTemplate
